import Mathlib

/-!
Verification development for the espeonage repository: a shallow embedding of
`replay_parser.py` (line tokenizer and log processor), `pokemon_tracker.py`
(entity registry) and `battle_simulator.py` (attribution engine), together with
theorems settling the specification claims.

Embedding conventions:
* Python strings are Lean `String`; character-level operations (`split`,
  `strip`, `startswith`, `lstrip`) are modelled by structurally recursive
  functions on `List Char` so that concrete runs reduce in the kernel.
* Python `int` is Lean `Int`; Python `float` (only the K/D ratio) is `Rat`.
* Python dicts that are only ever keyed by strings are insertion-ordered
  association lists; dict assignment that may create a key appends at the end.
* Fallible code returns `Except PyErr`; each constructor of `PyErr` names the
  Python exception class raised at the corresponding program point.
* A parsed log entry is a dict literal in the source; the simulator reads the
  key `'type'` from it while the tokenizer writes the key `'command'`, so the
  entry type carries both as optional fields, `none` meaning "key absent".
-/

/-- Python exception classes that the embedded code can raise. -/
inductive PyErr where
  | indexError : PyErr
  | valueError : PyErr
  | keyError : PyErr
  | attributeError : PyErr
deriving DecidableEq

/-- Decidable equality of embedded fallible results. -/
instance {ε α : Type} [DecidableEq ε] [DecidableEq α] : DecidableEq (Except ε α) :=
  fun x y =>
    match x, y with
    | .ok a, .ok b =>
      if h : a = b then isTrue (h ▸ rfl) else isFalse (fun hc => h (Except.ok.inj hc))
    | .error a, .error b =>
      if h : a = b then isTrue (h ▸ rfl) else isFalse (fun hc => h (Except.error.inj hc))
    | .ok _, .error _ => isFalse (fun hc => Except.noConfusion hc)
    | .error _, .ok _ => isFalse (fun hc => Except.noConfusion hc)

/-- Code points for which Python's `str.isspace` holds; `str.strip()` and
`str.split()` with no separator use exactly this set. -/
def pyWsCodes : List Nat :=
  [9, 10, 11, 12, 13, 28, 29, 30, 31, 32, 133, 160, 0x1680,
   0x2000, 0x2001, 0x2002, 0x2003, 0x2004, 0x2005, 0x2006, 0x2007,
   0x2008, 0x2009, 0x200A, 0x2028, 0x2029, 0x202F, 0x205F, 0x3000]

/-- Whitespace test used by Python's `strip` and no-separator `split`. -/
def isPyWs (c : Char) : Bool := pyWsCodes.contains c.toNat

/-- Python `s.strip()` on a character list. -/
def pyStripL (l : List Char) : List Char :=
  ((l.dropWhile isPyWs).reverse.dropWhile isPyWs).reverse

/-- Python `s.strip()`. -/
def pyStrip (s : String) : String := String.mk (pyStripL s.toList)

/-- Python `s.split(sep)` for a one-character separator: keeps empty fields,
`''.split(sep) = ['']`. -/
def splitChar (sep : Char) : List Char → List (List Char)
  | [] => [[]]
  | c :: cs =>
    if c = sep then [] :: splitChar sep cs
    else
      match splitChar sep cs with
      | [] => [[c]]
      | g :: gs => (c :: g) :: gs

/-- Python `s.split(sep, 1)` when `sep` occurs in `s`: the part before the
first occurrence and the remainder after it. -/
def splitOnceChar (sep : Char) : List Char → Option (List Char × List Char)
  | [] => none
  | c :: cs =>
    if c = sep then some ([], cs)
    else (splitOnceChar sep cs).map (fun p => (c :: p.1, p.2))

/-- Python `s.split(', ')`, the two-character separator used for switch-in
detail strings. -/
def splitCommaSpace : List Char → List (List Char)
  | [] => [[]]
  | [c] => [[c]]
  | ',' :: ' ' :: rest => [] :: splitCommaSpace rest
  | c :: rest =>
    match splitCommaSpace rest with
    | [] => [[c]]
    | g :: gs => (c :: g) :: gs

/-- Python `s.split()` with no separator: maximal runs of non-whitespace,
never producing empty fields. -/
def splitWsAux : List Char → List Char → List (List Char)
  | [], acc => if acc.isEmpty then [] else [acc.reverse]
  | c :: cs, acc =>
    if isPyWs c then
      if acc.isEmpty then splitWsAux cs []
      else acc.reverse :: splitWsAux cs []
    else splitWsAux cs (c :: acc)

/-- Python `s.split()` on a character list. -/
def pySplitWs (l : List Char) : List (List Char) := splitWsAux l []

/-- Python `s.lstrip('-')`. -/
def dropDashes (l : List Char) : List Char := l.dropWhile (fun c => c == '-')

/-- Python `s.startswith(p)` on character lists. -/
def startsWithL (line pat : List Char) : Bool := pat.isPrefixOf line

/-- Digit tail of a Python integer literal: digits with single underscores
allowed between digits, accumulating the value. -/
def numTail : Nat → List Char → Option Nat
  | acc, [] => some acc
  | acc, c :: cs =>
    if c.isDigit then numTail (acc * 10 + (c.toNat - 48)) cs
    else if c = '_' then
      match cs with
      | [] => none
      | d :: ds => if d.isDigit then numTail (acc * 10 + (d.toNat - 48)) ds else none
    else none

/-- Unsigned Python integer literal: nonempty, starts with a digit. -/
def numFrom : List Char → Option Nat
  | [] => none
  | c :: cs => if c.isDigit then numTail (c.toNat - 48) cs else none

/-- Signed body of Python `int(s)` after whitespace stripping. -/
def pyIntCore : List Char → Option Int
  | '+' :: cs => (numFrom cs).map Int.ofNat
  | '-' :: cs => (numFrom cs).map (fun n => -(n : Int))
  | l => (numFrom l).map Int.ofNat

/-- Python `int(s)` on a character list, `none` for `ValueError`.  (ASCII
digits; the rare unicode-digit forms Python also accepts are not modelled.) -/
def pyIntL (l : List Char) : Option Int := pyIntCore (pyStripL l)

/-- Python `int(s)`. -/
def pyInt (s : String) : Option Int := pyIntL s.toList

/-- Lookup in an insertion-ordered association list (Python dict read). -/
def alistGet {β : Type} : List (String × β) → String → Option β
  | [], _ => none
  | (k, v) :: rest, key => if k = key then some v else alistGet rest key

/-- Write to an insertion-ordered association list (Python dict assignment:
updates in place, or appends a fresh key at the end). -/
def alistSet {β : Type} : List (String × β) → String → β → List (String × β)
  | [], key, v => [(key, v)]
  | (k, w) :: rest, key, v =>
    if k = key then (k, v) :: rest else (k, w) :: alistSet rest key v

/-!  Line tokenizer and log processor (`replay_parser.py`). -/

/-- One tokenized battle-log event.  The source builds the dict
`{'command': command, 'args': args, 'raw': line}`; the field `type` models
the key `'type'`, which the tokenizer never writes (`entry.get('type')` in
the simulator then yields `None`). -/
structure LogEntry where
  type : Option String
  command : Option String
  args : List String
  raw : String
deriving DecidableEq

/-- ReplayParser._should_skip_line: chat/UI lines, and lines that neither
start with the delimiter nor with a dash, are dropped. -/
def should_skip_line (line : List Char) : Bool :=
  if startsWithL line "|c|".toList || startsWithL line "|chat|".toList
      || startsWithL line "|html|".toList || startsWithL line "|error|".toList then
    true
  else if !startsWithL line "|".toList && !startsWithL line "-".toList then
    true
  else
    false

/-- ReplayParser._is_terminal_command: the field after the leading delimiter,
with leading dashes stripped, is one of win/tie/forcewin. -/
def is_terminal_command (line : List Char) : Bool :=
  if !startsWithL line "|".toList then false
  else
    match splitChar '|' line with
    | _ :: c :: _ =>
      let command := dropDashes c
      if command = "win".toList ∨ command = "tie".toList ∨ command = "forcewin".toList
      then true else false
    | _ => false

/-- ReplayParser._parse_log_line: split on the delimiter, field 0 after the
leading delimiter is the command, the rest are arguments. -/
def parse_log_line (line : List Char) : Option LogEntry :=
  if !startsWithL line "|".toList then none
  else
    match splitChar '|' line with
    | [] => none
    | _ :: parts =>
      match parts with
      | [] => none
      | command :: args =>
        some { type := none, command := some (String.mk command),
               args := args.map String.mk, raw := String.mk line }

/-- Loop body of ReplayParser._process_log over the list of raw lines:
strip, drop blanks, drop skippable lines, stop at (and include) the first
terminal command, collect everything that tokenizes. -/
def process_log_lines : List (List Char) → List LogEntry
  | [] => []
  | l :: ls =>
    if (pyStripL l).isEmpty then process_log_lines ls
    else if should_skip_line (pyStripL l) then process_log_lines ls
    else if is_terminal_command (pyStripL l) then
      match parse_log_line (pyStripL l) with
      | some e => [e]
      | none => []
    else
      match parse_log_line (pyStripL l) with
      | some e => e :: process_log_lines ls
      | none => process_log_lines ls

/-- ReplayParser._process_log: split the raw text on newlines and run the
line loop. -/
def process_log (logText : String) : List LogEntry :=
  process_log_lines (splitChar '\n' logText.toList)

/-- ReplayParser.parse_raw_log restricted to its battle_log output (its
metadata output is always empty for raw logs). -/
def parse_raw_log (logText : String) : List LogEntry := process_log logText

/-!  Entity registry (`pokemon_tracker.py`). -/

/-- PokemonData dataclass. -/
structure PokemonData where
  name : String
  species : String := ""
  level : Int := 100
  gender : String := ""
  moves : List String := []
  ability : Option String := none
  item : Option String := none
  hp_max : Option Int := none
  hp_current : Option Int := none
  knockouts : Int := 0
  deaths : Int := 0
  damage_dealt : Int := 0
  damage_taken : Int := 0
  observed_stats : List (String × List Int) := []
deriving DecidableEq

/-- PokemonData.add_move: the revealed-move set grows by insertion. -/
def PokemonData.add_move (p : PokemonData) (move : String) : PokemonData :=
  if move ∈ p.moves then p else { p with moves := p.moves ++ [move] }

/-- PokemonData.set_ability. -/
def PokemonData.set_ability (p : PokemonData) (ability : String) : PokemonData :=
  { p with ability := some ability }

/-- PokemonData.set_item. -/
def PokemonData.set_item (p : PokemonData) (item : String) : PokemonData :=
  { p with item := some item }

/-- PokemonData.update_hp. -/
def PokemonData.update_hp (p : PokemonData) (hp max_hp : Int) : PokemonData :=
  { p with hp_current := some hp, hp_max := some max_hp }

/-- PokemonData.add_knockout. -/
def PokemonData.add_knockout (p : PokemonData) : PokemonData :=
  { p with knockouts := p.knockouts + 1 }

/-- PokemonData.add_death. -/
def PokemonData.add_death (p : PokemonData) : PokemonData :=
  { p with deaths := p.deaths + 1 }

/-- PokemonData.record_damage_dealt. -/
def PokemonData.record_damage_dealt (p : PokemonData) (damage : Int) : PokemonData :=
  { p with damage_dealt := p.damage_dealt + damage }

/-- PokemonData.record_damage_taken. -/
def PokemonData.record_damage_taken (p : PokemonData) (damage : Int) : PokemonData :=
  { p with damage_taken := p.damage_taken + damage }

/-- PokemonData.get_kd_ratio (Python float division modelled on `Rat`). -/
def PokemonData.get_kd_ratio (p : PokemonData) : Rat :=
  if p.deaths = 0 then (p.knockouts : Rat) else (p.knockouts : Rat) / (p.deaths : Rat)

/-- PokemonTracker: the `pokemon` dict keyed by `"player:name"` and the
`teams` dict initialised with keys `p1` and `p2`. -/
structure PokemonTracker where
  pokemon : List (String × PokemonData) := []
  teams : List (String × List String) := [("p1", []), ("p2", [])]
deriving DecidableEq

/-- PokemonTracker.__init__. -/
def newPokemonTracker : PokemonTracker := {}

/-- Python `pokemon_id in self.pokemon`. -/
def containsId (t : PokemonTracker) (pokemon_id : String) : Bool :=
  (alistGet t.pokemon pokemon_id).isSome

/-- Mutation of one entry of the `pokemon` dict in place. -/
def updatePokemon (t : PokemonTracker) (pokemon_id : String)
    (f : PokemonData → PokemonData) : PokemonTracker :=
  { t with pokemon := t.pokemon.map (fun p => if p.1 = pokemon_id then (p.1, f p.2) else p) }

/-- Details parsing inside PokemonTracker.register_pokemon: split the detail
string on `', '`; the head is the species, an `L##` part sets the level
(parse failures passed over), an `M`/`F` part sets the gender. -/
def parseDetails (name details : String) : String × Int × String :=
  if details = "" then (name, 100, "")
  else
    let parts := splitCommaSpace details.toList
    let species := match parts with
      | [] => name
      | p :: _ => String.mk p
    let lg := parts.tail.foldl
      (fun (lg : Int × String) (part : List Char) =>
        match part with
        | 'L' :: rest =>
          match pyIntL rest with
          | some n => (n, lg.2)
          | none => lg
        | _ =>
          if part = "M".toList ∨ part = "F".toList then (lg.1, String.mk part) else lg)
      (100, "")
    (species, lg.1, lg.2)

/-- PokemonTracker.register_pokemon: create the record on first sighting and
append the identifier to the player's team list.  The team-dict access
`self.teams[player]` raises `KeyError` for a side tag other than p1/p2
(after the `pokemon` dict was already extended). -/
def register_pokemon (t : PokemonTracker) (player position name details : String) :
    Except PyErr PokemonTracker :=
  let _ := position
  let pokemon_id := player ++ ":" ++ name
  if containsId t pokemon_id then .ok t
  else
    let slg := parseDetails name details
    let t1 : PokemonTracker :=
      { t with pokemon := t.pokemon ++
          [(pokemon_id, { name := name, species := slg.1, level := slg.2.1, gender := slg.2.2 })] }
    match alistGet t1.teams player with
    | none => .error .keyError
    | some lst =>
      if pokemon_id ∈ lst then .ok t1
      else .ok { t1 with teams := alistSet t1.teams player (lst ++ [pokemon_id]) }

/-- PokemonTracker.track_move: no-op on an unknown identifier. -/
def track_move (t : PokemonTracker) (user move : String) : PokemonTracker :=
  if containsId t user then updatePokemon t user (fun p => p.add_move move) else t

/-- PokemonTracker.track_ability: no-op on an unknown identifier. -/
def track_ability (t : PokemonTracker) (pokemon ability : String) : PokemonTracker :=
  if containsId t pokemon then updatePokemon t pokemon (fun p => p.set_ability ability) else t

/-- PokemonTracker.track_item: no-op on an unknown identifier. -/
def track_item (t : PokemonTracker) (pokemon item : String) : PokemonTracker :=
  if containsId t pokemon then updatePokemon t pokemon (fun p => p.set_item item) else t

/-- PokemonTracker.track_hp: no-op on an unknown identifier. -/
def track_hp (t : PokemonTracker) (pokemon : String) (hp max_hp : Int) : PokemonTracker :=
  if containsId t pokemon then updatePokemon t pokemon (fun p => p.update_hp hp max_hp) else t

/-- PokemonTracker.track_faint: adds a death; no-op on an unknown identifier. -/
def track_faint (t : PokemonTracker) (pokemon : String) : PokemonTracker :=
  if containsId t pokemon then updatePokemon t pokemon (fun p => p.add_death) else t

/-- PokemonTracker.track_knockout: no-op on an unknown identifier. -/
def track_knockout (t : PokemonTracker) (pokemon : String) : PokemonTracker :=
  if containsId t pokemon then updatePokemon t pokemon (fun p => p.add_knockout) else t

/-- PokemonTracker.track_damage: the dealt update is skipped when the attacker
is unknown and the taken update is skipped when the defender is unknown;
the two checks are independent. -/
def track_damage (t : PokemonTracker) (attacker defender : String) (damage : Int) :
    PokemonTracker :=
  let t1 := if containsId t attacker
    then updatePokemon t attacker (fun p => p.record_damage_dealt damage) else t
  if containsId t1 defender
    then updatePokemon t1 defender (fun p => p.record_damage_taken damage) else t1

/-- PokemonTracker.get_pokemon. -/
def get_pokemon (t : PokemonTracker) (pokemon_id : String) : Option PokemonData :=
  alistGet t.pokemon pokemon_id

/-- PokemonTracker.get_team: the registered records of one player's team in
first-registration order. -/
def get_team (t : PokemonTracker) (player : String) : List PokemonData :=
  ((alistGet t.teams player).getD []).filterMap (fun pid => alistGet t.pokemon pid)

/-- One entry of PokemonTracker.get_summary.  The summary dict carries no
move-kill mapping: the source has no such key. -/
structure PokemonSummary where
  name : String
  species : String
  level : Int
  moves : List String
  ability : Option String
  item : Option String
  knockouts : Int
  deaths : Int
  kd_ratio : Rat
  damage_dealt : Int
  damage_taken : Int
deriving DecidableEq

/-- PokemonTracker.get_summary. -/
def get_summary (t : PokemonTracker) : List (String × PokemonSummary) :=
  t.pokemon.map (fun p =>
    (p.1, { name := p.2.name, species := p.2.species, level := p.2.level,
            moves := p.2.moves, ability := p.2.ability, item := p.2.item,
            knockouts := p.2.knockouts, deaths := p.2.deaths,
            kd_ratio := p.2.get_kd_ratio,
            damage_dealt := p.2.damage_dealt, damage_taken := p.2.damage_taken }))

/-!  Attribution engine (`battle_simulator.py`). -/

/-- BattleSimulator.NON_ATTACK_MOVES, in source order (a Python set literal;
duplicate literals in the source are kept, membership is unaffected). -/
def NON_ATTACK_MOVES : List String :=
  ["Toxic", "Thunder Wave", "Will-O-Wisp", "Spore", "Sleep Powder", "Stun Spore",
   "Hypnosis", "Yawn", "Poison Powder", "Glare", "Paralyze", "Confuse Ray",
   "Supersonic", "Swagger", "Sweet Kiss", "Attract", "Taunt", "Torment",
   "Encore", "Disable", "Heal Block", "Embargo", "Leech Seed",
   "Spikes", "Toxic Spikes", "Stealth Rock", "Sticky Web",
   "Trick Room", "Magic Room", "Wonder Room", "Gravity", "Grassy Terrain",
   "Misty Terrain", "Electric Terrain", "Psychic Terrain", "Rain Dance",
   "Sunny Day", "Sandstorm", "Hail", "Snow", "Tailwind", "Light Screen",
   "Reflect", "Aurora Veil", "Safeguard", "Mist",
   "Swords Dance", "Dragon Dance", "Nasty Plot", "Calm Mind", "Bulk Up",
   "Agility", "Rock Polish", "Quiver Dance", "Shift Gear", "Coil",
   "Curse", "Iron Defense", "Amnesia", "Acid Armor", "Barrier",
   "Cosmic Power", "Cotton Guard", "Defend Order", "Harden", "Withdraw",
   "Defense Curl", "Stockpile", "Charge", "Focus Energy", "Meditate",
   "Sharpen", "Acupressure", "Howl", "Work Up", "Growth", "Hone Claws",
   "Shell Smash", "Tail Glow", "Geomancy", "No Retreat",
   "Recover", "Roost", "Slack Off", "Soft-Boiled", "Rest", "Wish",
   "Healing Wish", "Lunar Dance", "Heal Order", "Milk Drink", "Moonlight",
   "Morning Sun", "Synthesis", "Heal Bell", "Aromatherapy", "Refresh",
   "Purify", "Life Dew", "Shore Up", "Swallow", "Strength Sap",
   "Protect", "Detect", "Endure", "King\x27s Shield", "Spiky Shield",
   "Baneful Bunker", "Obstruct", "Silk Trap", "Burning Bulwark",
   "Teleport", "Baton Pass", "Parting Shot", "Shed Shell",
   "Substitute", "Helping Hand", "Follow Me", "Rage Powder", "Spotlight",
   "Ally Switch", "Trick", "Switcheroo", "Bestow", "Instruct",
   "Skill Swap", "Role Play", "Entrainment", "Guard Split", "Power Split",
   "Speed Swap", "Guard Swap", "Power Swap", "Heart Swap", "Mimic",
   "Transform", "Copycat", "Me First", "Snatch", "Recycle", "Metronome",
   "Splash", "Celebrate", "Hold Hands", "Happy Hour", "Conversion",
   "Conversion 2", "Camouflage", "Nightmare", "Perish Song", "Mean Look",
   "Block", "Spider Web", "Sand Tomb", "Whirlpool", "Bind", "Wrap",
   "Fire Spin", "Magma Storm", "Infestation", "Clamp", "Snore", "Forest\x27s Curse",
   "Trick-or-Treat", "Rototiller", "Magnetic Flux", "Gear Up", "Electric Terrain",
   "Flower Shield", "Ion Deluge", "Powder", "Tearful Look", "Baby-Doll Eyes",
   "Play Nice", "Venom Drench", "Stockpile", "Belly Drum", "Psych Up",
   "Power Trick", "Guard Split", "Power Split", "Speed Swap"]

/-- BattleSimulator state: the tracker, the active-slot dict and the
`last_move` dict mapping a side tag to the last mover and move of that side
(`last_move` starts empty and keys are created on first move). -/
structure BattleSimulator where
  tracker : PokemonTracker := newPokemonTracker
  active_pokemon : List (String × Option String) := [("p1", none), ("p2", none)]
  last_move : List (String × (String × String)) := []
deriving DecidableEq

/-- BattleSimulator.__init__ (the damage calculator collaborator holds no
state that the log-processing path reads, so it is not modelled). -/
def newBattleSimulator : BattleSimulator := {}

/-- BattleSimulator._parse_pokemon_ident: split on the first colon, side tag
is the first two characters of the prefix, nickname is the trimmed
remainder; no colon means no identifier. -/
def parse_pokemon_ident (ident : String) : Option (String × String) :=
  let cs := ident.toList
  if !cs.contains ':' then none
  else
    match splitOnceChar ':' cs with
    | none => none
    | some (pos, rest) =>
      let position := pyStripL pos
      let name := pyStripL rest
      let player := position.take 2
      some (String.mk (player ++ ':' :: name), String.mk player)

/-- BattleSimulator._parse_hp: `parts[0]` raises IndexError on a tokenless
string; the literal `0` short-circuits to 0/0; a token containing `/` must
unpack into exactly two integer literals or ValueError is raised; any other
token yields the unparseable signal `(None, None)`. -/
def parse_hp (hp_str : String) : Except PyErr (Option Int × Option Int × Option String) :=
  match pySplitWs hp_str.toList with
  | [] => .error .indexError
  | hp_part :: rest =>
    let status := rest.head?.map String.mk
    if hp_part = "0".toList then .ok (some 0, some 0, status)
    else if hp_part.contains '/' then
      match splitChar '/' hp_part with
      | [current, max_hp] =>
        match pyIntL current, pyIntL max_hp with
        | some a, some b => .ok (some a, some b, status)
        | _, _ => .error .valueError
      | _ => .error .valueError
    else .ok (none, none, status)

/-- BattleSimulator._is_attack_move: membership in the static non-attack
table, negated. -/
def is_attack_move (move : String) : Bool := !NON_ATTACK_MOVES.contains move

/-- BattleSimulator._handle_player (pass). -/
def handle_player (sim : BattleSimulator) (args : List String) : Except PyErr BattleSimulator :=
  let _ := args
  .ok sim

/-- BattleSimulator._handle_teamsize (pass). -/
def handle_teamsize (sim : BattleSimulator) (args : List String) : Except PyErr BattleSimulator :=
  let _ := args
  .ok sim

/-- BattleSimulator._handle_gametype (pass). -/
def handle_gametype (sim : BattleSimulator) (args : List String) : Except PyErr BattleSimulator :=
  let _ := args
  .ok sim

/-- BattleSimulator._handle_gen (pass). -/
def handle_gen (sim : BattleSimulator) (args : List String) : Except PyErr BattleSimulator :=
  let _ := args
  .ok sim

/-- BattleSimulator._handle_tier (pass). -/
def handle_tier (sim : BattleSimulator) (args : List String) : Except PyErr BattleSimulator :=
  let _ := args
  .ok sim

/-- BattleSimulator._handle_poke: computes a species prefix and discards it;
no state change. -/
def handle_poke (sim : BattleSimulator) (args : List String) : Except PyErr BattleSimulator :=
  let _ := args
  .ok sim

/-- BattleSimulator._handle_switch: register on first sighting (nickname is
re-derived from the composite identifier by splitting on every colon and
taking element 1), set the active slot, and record HP when the third
argument is nonempty and parses. -/
def handle_switch (sim : BattleSimulator) (args : List String) : Except PyErr BattleSimulator :=
  match args with
  | a0 :: a1 :: rest =>
    let details := a1
    let hp_str := match rest with
      | h :: _ => h
      | [] => ""
    match parse_pokemon_ident a0 with
    | none => .ok sim
    | some (pokemon_id, player) =>
      match splitChar ':' pokemon_id.toList with
      | _ :: n :: _ =>
        let name := String.mk n
        match register_pokemon sim.tracker player a0 name details with
        | .error e => .error e
        | .ok tr =>
          let sim1 : BattleSimulator :=
            { sim with tracker := tr,
                       active_pokemon := alistSet sim.active_pokemon player (some pokemon_id) }
          if hp_str ≠ "" then
            match parse_hp hp_str with
            | .error e => .error e
            | .ok (some hp, some max_hp, _) =>
              .ok { sim1 with tracker := track_hp sim1.tracker pokemon_id hp max_hp }
            | .ok _ => .ok sim1
          else .ok sim1
      | _ => .error .indexError
  | _ => .ok sim

/-- BattleSimulator._handle_move: record the revealed move and overwrite the
side's last-move slot. -/
def handle_move (sim : BattleSimulator) (args : List String) : Except PyErr BattleSimulator :=
  match args with
  | a0 :: a1 :: _ =>
    match parse_pokemon_ident a0 with
    | none => .ok sim
    | some (pokemon_id, player) =>
      .ok { sim with tracker := track_move sim.tracker pokemon_id a1,
                     last_move := alistSet sim.last_move player (pokemon_id, a1) }
  | _ => .ok sim

/-- BattleSimulator._handle_damage: read the old HP, update HP when the new
HP parses, and, when the old HP was known and the opponent side has a
last-move record, attribute `old_hp - hp` (no clamping) as damage dealt by
that mover and taken by the target. -/
def handle_damage (sim : BattleSimulator) (args : List String) : Except PyErr BattleSimulator :=
  match args with
  | a0 :: a1 :: _ =>
    match parse_pokemon_ident a0 with
    | none => .ok sim
    | some (pokemon_id, player) =>
      let old_hp := match get_pokemon sim.tracker pokemon_id with
        | some pd => pd.hp_current
        | none => none
      match parse_hp a1 with
      | .error e => .error e
      | .ok (some hp, some max_hp, _) =>
        let sim1 : BattleSimulator :=
          { sim with tracker := track_hp sim.tracker pokemon_id hp max_hp }
        match old_hp with
        | some old =>
          let damage := old - hp
          let opponent := if player = "p2" then "p1" else "p2"
          match alistGet sim1.last_move opponent with
          | some lm =>
            .ok { sim1 with tracker := track_damage sim1.tracker lm.1 pokemon_id damage }
          | none => .ok sim1
        | none => .ok sim1
      | .ok _ => .ok sim
  | _ => .ok sim

/-- BattleSimulator._handle_faint: record the death; when the opponent side
has a last-move record and that move is classified as an attack, record the
knockout and then call `self.tracker.track_move_kill`, a method that
`PokemonTracker` does not define — that call raises AttributeError. -/
def handle_faint (sim : BattleSimulator) (args : List String) : Except PyErr BattleSimulator :=
  match args with
  | a0 :: _ =>
    match parse_pokemon_ident a0 with
    | none => .ok sim
    | some (pokemon_id, player) =>
      let tr1 := track_faint sim.tracker pokemon_id
      let opponent := if player = "p2" then "p1" else "p2"
      match alistGet sim.last_move opponent with
      | none => .ok { sim with tracker := tr1 }
      | some lm =>
        if is_attack_move lm.2 then
          let _ := track_knockout tr1 lm.1
          .error .attributeError
        else .ok { sim with tracker := tr1 }
  | [] => .ok sim

/-- BattleSimulator._handle_ability. -/
def handle_ability (sim : BattleSimulator) (args : List String) : Except PyErr BattleSimulator :=
  match args with
  | a0 :: a1 :: _ =>
    match parse_pokemon_ident a0 with
    | none => .ok sim
    | some (pokemon_id, _) =>
      .ok { sim with tracker := track_ability sim.tracker pokemon_id a1 }
  | _ => .ok sim

/-- BattleSimulator._handle_item. -/
def handle_item (sim : BattleSimulator) (args : List String) : Except PyErr BattleSimulator :=
  match args with
  | a0 :: a1 :: _ =>
    match parse_pokemon_ident a0 with
    | none => .ok sim
    | some (pokemon_id, _) =>
      .ok { sim with tracker := track_item sim.tracker pokemon_id a1 }
  | _ => .ok sim

/-- BattleSimulator._handle_enditem (pass). -/
def handle_enditem (sim : BattleSimulator) (args : List String) : Except PyErr BattleSimulator :=
  let _ := args
  .ok sim

/-- BattleSimulator._handle_heal: update HP only when the new value parses. -/
def handle_heal (sim : BattleSimulator) (args : List String) : Except PyErr BattleSimulator :=
  match args with
  | a0 :: a1 :: _ =>
    match parse_pokemon_ident a0 with
    | none => .ok sim
    | some (pokemon_id, _) =>
      match parse_hp a1 with
      | .error e => .error e
      | .ok (some hp, some max_hp, _) =>
        .ok { sim with tracker := track_hp sim.tracker pokemon_id hp max_hp }
      | .ok _ => .ok sim
  | _ => .ok sim

/-- BattleSimulator._process_log_entry: dispatch on `entry.get('type')` —
note the key, which the tokenizer output does not carry. -/
def process_log_entry (sim : BattleSimulator) (entry : LogEntry) : Except PyErr BattleSimulator :=
  match entry.type with
  | none => .ok sim
  | some cmd_type =>
    if cmd_type = "player" then handle_player sim entry.args
    else if cmd_type = "teamsize" then handle_teamsize sim entry.args
    else if cmd_type = "gametype" then handle_gametype sim entry.args
    else if cmd_type = "gen" then handle_gen sim entry.args
    else if cmd_type = "tier" then handle_tier sim entry.args
    else if cmd_type = "poke" then handle_poke sim entry.args
    else if cmd_type = "switch" ∨ cmd_type = "drag" then handle_switch sim entry.args
    else if cmd_type = "move" then handle_move sim entry.args
    else if cmd_type = "-damage" then handle_damage sim entry.args
    else if cmd_type = "faint" then handle_faint sim entry.args
    else if cmd_type = "-ability" then handle_ability sim entry.args
    else if cmd_type = "-item" then handle_item sim entry.args
    else if cmd_type = "-enditem" then handle_enditem sim entry.args
    else if cmd_type = "-heal" then handle_heal sim entry.args
    else .ok sim

/-- Loop of BattleSimulator.process_battle_log over the entries; the first
raised exception aborts the pass. -/
def processEntries : List LogEntry → BattleSimulator → Except PyErr BattleSimulator
  | [], sim => .ok sim
  | e :: es, sim =>
    match process_log_entry sim e with
    | .error err => .error err
    | .ok sim1 => processEntries es sim1

/-- Result dict of BattleSimulator.process_battle_log: the per-entity summary
and the two name lists. -/
structure BattleResult where
  pokemon : List (String × PokemonSummary)
  teams_p1 : List String
  teams_p2 : List String
deriving DecidableEq

/-- Rendering of the final simulator state into the result dict. -/
def buildResult (sim : BattleSimulator) : BattleResult :=
  { pokemon := get_summary sim.tracker,
    teams_p1 := (get_team sim.tracker "p1").map (fun p => p.name),
    teams_p2 := (get_team sim.tracker "p2").map (fun p => p.name) }

/-- BattleSimulator.process_battle_log. -/
def process_battle_log (battle_log : List LogEntry) (sim : BattleSimulator) :
    Except PyErr BattleResult :=
  (processEntries battle_log sim).map buildResult

/-!  Concrete states, event sequences and projections used by the
claim-level theorems. -/

/-- Raw text of the C1 scenario log. -/
def scenarioLog : String :=
  "|switch|p1a: Pikachu|Pikachu, L50|150/150\n|switch|p2a: Charizard|Charizard, L50|200/200\n|move|p1a: Pikachu|Thunderbolt\n|-damage|p2a: Charizard|0 fnt\n|faint|p2a: Charizard\n|win|Player1"

/-- Simulator state in which side p1's registered last move is the non-attack
move Recover, used for the C3 scenario. -/
def recoverSim : BattleSimulator :=
  { tracker := { pokemon := [("p1:Toxapex", { name := "Toxapex" }),
                             ("p2:Charizard", { name := "Charizard" })],
                 teams := [("p1", ["p1:Toxapex"]), ("p2", ["p2:Charizard"])] },
    active_pokemon := [("p1", some "p1:Toxapex"), ("p2", some "p2:Charizard")],
    last_move := [("p1", ("p1:Toxapex", "Recover"))] }

/-- Simulator state used for the C4 witness: `p2:B` has 50 HP recorded and
side p1's last move is Tackle by `p1:A`. -/
def damageSim : BattleSimulator :=
  { tracker := { pokemon := [("p1:A", { name := "A", hp_current := some 150, hp_max := some 150 }),
                             ("p2:B", { name := "B", hp_current := some 50, hp_max := some 200 })],
                 teams := [("p1", ["p1:A"]), ("p2", ["p2:B"])] },
    active_pokemon := [("p1", some "p1:A"), ("p2", some "p2:B")],
    last_move := [("p1", ("p1:A", "Tackle"))] }

/-- Event-dict literal with the `type` key set, the shape the dispatcher
actually consumes (and the shape the repository's tests assume). -/
def mkEntry (cmd : String) (args : List String) : LogEntry :=
  { type := some cmd, command := none, args := args, raw := "" }

/-- Event sequence for the C4 counterexample: A damages B for 50, then a
`-damage` event reports B's HP rising from 150 back to 180. -/
def c4Entries : List LogEntry :=
  [mkEntry "switch" ["p1a: A", "A, L50", "150/150"],
   mkEntry "switch" ["p2a: B", "B, L50", "200/200"],
   mkEntry "move" ["p1a: A", "Tackle"],
   mkEntry "-damage" ["p2a: B", "150/200"],
   mkEntry "-damage" ["p2a: B", "180/200"]]

/-- Projection of one combatant's reported damage-dealt figure out of a
battle result. -/
def dealtIn (r : Except PyErr BattleResult) (pid : String) : Option Int :=
  match r with
  | .ok br => (alistGet br.pokemon pid).map PokemonSummary.damage_dealt
  | .error _ => none

/-- Event emitted for the protocol line of the C8 witness log. -/
def c8entry : LogEntry :=
  { type := none, command := some "move", args := ["p1a: A", "Tackle"],
    raw := "|move|p1a: A|Tackle" }

/-- Tracker with exactly one registered combatant, used for C9. -/
def oneTracker : PokemonTracker :=
  { pokemon := [("p1:A", { name := "A" })], teams := [("p1", ["p1:A"]), ("p2", [])] }

/-!  Shared lemmas: the tokenizer writes `command`, the dispatcher reads
`type`; every tokenized event therefore carries no `type` key and the
dispatcher ignores it. -/

theorem parse_log_line_type (line : List Char) (e : LogEntry)
    (h : parse_log_line line = some e) : e.type = none := by
  unfold parse_log_line at h
  split at h
  · simp at h
  · split at h
    · simp at h
    · split at h
      · simp at h
      · rw [Option.some.injEq] at h
        subst h
        rfl

theorem process_log_lines_type (ls : List (List Char)) (e : LogEntry)
    (h : e ∈ process_log_lines ls) : e.type = none := by
  induction ls with
  | nil => simp [process_log_lines] at h
  | cons l ls ih =>
    unfold process_log_lines at h
    split at h
    · exact ih h
    · split at h
      · exact ih h
      · split at h
        · split at h
          · next e' he' =>
              rw [List.mem_singleton] at h
              subst h
              exact parse_log_line_type _ _ he'
          · simp at h
        · split at h
          · next e' he' =>
              rcases List.mem_cons.mp h with h1 | h2
              · subst h1
                exact parse_log_line_type _ _ he'
              · exact ih h2
          · exact ih h

theorem process_log_entry_no_type (sim : BattleSimulator) (entry : LogEntry)
    (h : entry.type = none) : process_log_entry sim entry = .ok sim := by
  unfold process_log_entry
  rw [h]

theorem processEntries_no_type (l : List LogEntry) (sim : BattleSimulator)
    (h : ∀ e ∈ l, e.type = none) : processEntries l sim = .ok sim := by
  induction l with
  | nil => rfl
  | cons e es ih =>
    unfold processEntries
    rw [process_log_entry_no_type sim e (h e (List.mem_cons_self e es))]
    exact ih (fun e' he' => h e' (List.mem_cons_of_mem e he'))

theorem pipeline_ok_empty (logText : String) :
    process_battle_log (parse_raw_log logText) newBattleSimulator =
      .ok { pokemon := [], teams_p1 := [], teams_p2 := [] } := by
  unfold process_battle_log parse_raw_log process_log
  rw [processEntries_no_type _ _
    (fun e he => process_log_lines_type _ e he)]
  rfl

/-!  Claim C2: the tokenizer/dispatcher key mismatch. -/

/-- C2: the tokenizer emits events under the key `command` while the
dispatcher reads the key `type`; hence for every event sequence produced by
the replay parser, `process_battle_log` handles no event at all — the
simulator state stays the freshly-constructed one and the returned summary
has an empty pokemon map and empty teams. -/
theorem tokenizer_dispatch_mismatch (logText : String) :
    (∀ e ∈ parse_raw_log logText, e.command.isSome ∧ e.type = none) ∧
    processEntries (parse_raw_log logText) newBattleSimulator = .ok newBattleSimulator ∧
    process_battle_log (parse_raw_log logText) newBattleSimulator =
      .ok { pokemon := [], teams_p1 := [], teams_p2 := [] } := by
  refine ⟨?_, ?_, pipeline_ok_empty logText⟩
  · intro e he
    refine ⟨?_, process_log_lines_type _ e he⟩
    revert he
    unfold parse_raw_log process_log
    generalize splitChar '\n' logText.toList = ls
    induction ls with
    | nil => intro he; simp [process_log_lines] at he
    | cons l ls ih =>
      intro he
      unfold process_log_lines at he
      split at he
      · exact ih he
      · split at he
        · exact ih he
        · split at he
          · split at he
            · next e' he' =>
                rw [List.mem_singleton] at he
                subst he
                revert he'
                unfold parse_log_line
                split
                · simp
                · split
                  · simp
                  · split
                    · simp
                    · intro he'
                      rw [Option.some.injEq] at he'
                      subst he'
                      exact rfl
            · simp at he
          · split at he
            · next e' he' =>
                rcases List.mem_cons.mp he with h1 | h2
                · subst h1
                  revert he'
                  unfold parse_log_line
                  split
                  · simp
                  · split
                    · simp
                    · split
                      · simp
                      · intro he'
                        rw [Option.some.injEq] at he'
                        subst he'
                        exact rfl
                · exact ih h2
            · exact ih he
  · exact processEntries_no_type _ _ (fun e he => process_log_lines_type _ e he)

/-!  Claims C5, C10 and C1. -/

/-- C5: processing any battle-log text through the tokenizer and then the
battle simulator never raises: the tokenizer is total, and since no
tokenized event carries the `type` key the dispatcher consults, no handler
(and so no fallible code path) is ever reached. -/
theorem pipeline_no_exception (logText : String) :
    ∃ r, process_battle_log (parse_raw_log logText) newBattleSimulator = Except.ok r :=
  ⟨_, pipeline_ok_empty logText⟩

/-- C10: the core is a deterministic function of the event sequence — running
`process_battle_log` on the same entries from two independently
freshly-constructed simulators yields identical output. -/
theorem process_battle_log_deterministic (battle_log : List LogEntry)
    (s1 s2 : BattleSimulator)
    (h1 : s1 = newBattleSimulator) (h2 : s2 = newBattleSimulator) :
    process_battle_log battle_log s1 = process_battle_log battle_log s2 := by
  subst h1
  subst h2
  rfl

/-- Witness for C10 at a concrete one-event sequence. -/
theorem process_battle_log_deterministic_witness :
    newBattleSimulator = newBattleSimulator ∧
    process_battle_log
        [{ type := some "switch", command := none,
           args := ["p1a: Pikachu", "Pikachu, L50", "150/150"],
           raw := "|switch|p1a: Pikachu|Pikachu, L50|150/150" }] newBattleSimulator =
      process_battle_log
        [{ type := some "switch", command := none,
           args := ["p1a: Pikachu", "Pikachu, L50", "150/150"],
           raw := "|switch|p1a: Pikachu|Pikachu, L50|150/150" }] newBattleSimulator :=
  ⟨rfl, process_battle_log_deterministic _ newBattleSimulator newBattleSimulator rfl rfl⟩

/-- C1 (code bug): the tokenizer does tokenize all six scenario lines, but
feeding its output to the battle simulator yields an empty summary — no
`p1:Pikachu` entry, no knockout, and the summary dict has no move-kill
mapping at all — instead of the knockouts/move-kill figures the claim (and
the repository's own test suite) expects. -/
theorem scenario_log_empty_summary :
    (parse_raw_log scenarioLog).map (fun e => e.command) =
      [some "switch", some "switch", some "move", some "-damage", some "faint", some "win"] ∧
    process_battle_log (parse_raw_log scenarioLog) newBattleSimulator =
      .ok { pokemon := [], teams_p1 := [], teams_p2 := [] } :=
  ⟨by decide, pipeline_ok_empty scenarioLog⟩

/-!  Claim C3: faint handling when the opponent's last move is a non-attack. -/

theorem alistGet_map_if (f : PokemonData → PokemonData)
    (l : List (String × PokemonData)) (pokemon_id q : String) :
    alistGet (l.map (fun p => if p.1 = pokemon_id then (p.1, f p.2) else p)) q =
      (alistGet l q).map (fun d => if q = pokemon_id then f d else d) := by
  induction l with
  | nil => rfl
  | cons hd tl ih =>
    obtain ⟨k, v⟩ := hd
    rw [List.map_cons]
    by_cases hk : k = pokemon_id
    · rw [if_pos (show (k, v).1 = pokemon_id from hk)]
      by_cases hq : k = q
      · subst hq
        simp [alistGet, hk]
      · simp [alistGet, hq, ih]
    · rw [if_neg (show ¬(k, v).1 = pokemon_id from hk)]
      by_cases hq : k = q
      · subst hq
        simp [alistGet, hk]
      · simp [alistGet, hq, ih]

theorem track_faint_knockouts (t : PokemonTracker) (pid q : String) :
    (alistGet (track_faint t pid).pokemon q).map PokemonData.knockouts =
      (alistGet t.pokemon q).map PokemonData.knockouts := by
  unfold track_faint
  split
  · unfold updatePokemon
    rw [alistGet_map_if]
    cases alistGet t.pokemon q with
    | none => rfl
    | some d =>
      by_cases h : q = pid <;> simp [h, PokemonData.add_death]
  · rfl

/-- C3 as amended: when the opponent side's recorded last move is classified
as non-attack, processing the faint only records the target's death — the
last mover's knockout counter is NOT incremented (the code gates both the
knockout and the move-kill credit on the attack classification; the spec's
claim that the knockout is still credited does not hold, and the tracker
maintains no move-kill store at all). -/
theorem faint_nonattack_no_credit (sim : BattleSimulator) (ident : String)
    (rest : List String) (pid player att mv q : String)
    (h1 : parse_pokemon_ident ident = some (pid, player))
    (h2 : alistGet sim.last_move (if player = "p2" then "p1" else "p2") = some (att, mv))
    (h3 : is_attack_move mv = false) :
    handle_faint sim (ident :: rest) = .ok { sim with tracker := track_faint sim.tracker pid } ∧
    (alistGet (track_faint sim.tracker pid).pokemon q).map PokemonData.knockouts =
      (alistGet sim.tracker.pokemon q).map PokemonData.knockouts := by
  refine ⟨?_, track_faint_knockouts sim.tracker pid q⟩
  simp only [handle_faint, h1, h2, h3]
  rfl

/-- Counterexample to C3 as stated: with Recover (non-attack) as p1's last
move, the faint of p2's Charizard leaves Toxapex's knockout counter at 0
(the claim says it is incremented to 1); only Charizard's death count moves. -/
theorem faint_nonattack_cex :
    is_attack_move "Recover" = false ∧
    (match handle_faint recoverSim ["p2a: Charizard"] with
     | .ok s => (alistGet s.tracker.pokemon "p1:Toxapex").map PokemonData.knockouts
     | .error _ => none) = some 0 ∧
    (match handle_faint recoverSim ["p2a: Charizard"] with
     | .ok s => (alistGet s.tracker.pokemon "p2:Charizard").map PokemonData.deaths
     | .error _ => none) = some 1 := by
  decide

/-- Witness for C3's amended theorem at the Recover scenario. -/
theorem faint_nonattack_no_credit_witness :
    parse_pokemon_ident "p2a: Charizard" = some ("p2:Charizard", "p2") ∧
    is_attack_move "Recover" = false ∧
    (handle_faint recoverSim ["p2a: Charizard"] =
        .ok { recoverSim with tracker := track_faint recoverSim.tracker "p2:Charizard" } ∧
      (alistGet (track_faint recoverSim.tracker "p2:Charizard").pokemon "p1:Toxapex").map
          PokemonData.knockouts =
        (alistGet recoverSim.tracker.pokemon "p1:Toxapex").map PokemonData.knockouts) :=
  ⟨by decide, by decide,
   faint_nonattack_no_credit recoverSim "p2a: Charizard" [] "p2:Charizard" "p2"
     "p1:Toxapex" "Recover" "p1:Toxapex" (by decide) (by decide) (by decide)⟩

/-!  Claim C4: damage attribution is not clamped at zero. -/

/-- C4 as amended: for a `-damage` event whose target has a known previous HP
`old` and whose new HP parses as `a/b`, the handler updates the HP and
attributes exactly `old - a` — with no clamping — as damage dealt by the
opponent side's last mover and taken by the target; an HP increase therefore
contributes negative damage and the counters are not monotone. -/
theorem handle_damage_unclamped (sim : BattleSimulator) (ident hpstr : String)
    (rest : List String) (pid player : String) (pd : PokemonData) (old a b : Int)
    (st : Option String) (att mv : String)
    (h1 : parse_pokemon_ident ident = some (pid, player))
    (h2 : get_pokemon sim.tracker pid = some pd)
    (h3 : pd.hp_current = some old)
    (h4 : parse_hp hpstr = .ok (some a, some b, st))
    (h5 : alistGet sim.last_move (if player = "p2" then "p1" else "p2") = some (att, mv)) :
    handle_damage sim (ident :: hpstr :: rest) =
      .ok { sim with tracker := track_damage (track_hp sim.tracker pid a b) att pid (old - a) } := by
  simp only [handle_damage, h1, h2, h3, h4, h5]

/-- Witness for C4's amended theorem: a damage event reporting an HP rise
from 50 to 100 attributes exactly 50 - 100 = -50. -/
theorem handle_damage_unclamped_witness :
    parse_pokemon_ident "p2a: B" = some ("p2:B", "p2") ∧
    parse_hp "100/200" = .ok (some 100, some 200, none) ∧
    handle_damage damageSim ["p2a: B", "100/200"] =
      .ok { damageSim with
              tracker := track_damage (track_hp damageSim.tracker "p2:B" 100 200)
                "p1:A" "p2:B" (50 - 100) } :=
  ⟨by decide, by decide,
   handle_damage_unclamped damageSim "p2a: B" "100/200" [] "p2:B" "p2"
     { name := "B", hp_current := some 50, hp_max := some 200 } 50 100 200 none
     "p1:A" "Tackle" (by decide) (by decide) rfl (by decide) (by decide)⟩

/-- Counterexample to C4 as stated: after the first four events A's
damage-dealt counter is 50; the fifth event reports an HP increase and the
counter drops to 20 — the contribution was -30, not the claimed
max(oldHp - newHp, 0) = 0, and the counter is not monotone. -/
theorem damage_not_clamped_cex :
    dealtIn (process_battle_log (c4Entries.take 4) newBattleSimulator) "p1:A" = some 50 ∧
    dealtIn (process_battle_log c4Entries newBattleSimulator) "p1:A" = some 20 := by
  decide

/-!  Claim C6: behaviour of the HP parser. -/

/-- C6 as amended: the literal token `0` (with or without a trailing status
tag) yields 0/0; a slash token whose two parts are plain integer literals
yields those integers; a token without a slash that is not `0` yields the
unparseable signal without raising; but the parser is not exception-free —
a tokenless input raises IndexError and a slash token that does not unpack
into two integer literals raises ValueError. -/
theorem parse_hp_behavior (s : String) :
    (pySplitWs s.toList = [] → parse_hp s = .error .indexError) ∧
    (∀ tok rest, pySplitWs s.toList = tok :: rest →
      (tok = "0".toList → parse_hp s = .ok (some 0, some 0, rest.head?.map String.mk)) ∧
      (tok.contains '/' = false → tok ≠ "0".toList →
        parse_hp s = .ok (none, none, rest.head?.map String.mk)) ∧
      (∀ a b x y, tok.contains '/' = true → splitChar '/' tok = [a, b] →
        pyIntL a = some x → pyIntL b = some y →
        parse_hp s = .ok (some x, some y, rest.head?.map String.mk))) := by
  constructor
  · intro h
    unfold parse_hp
    rw [h]
  · intro tok rest heq
    refine ⟨?_, ?_, ?_⟩
    · intro h0
      simp only [parse_hp, heq]
      rw [if_pos h0]
    · intro hc hne
      simp only [parse_hp, heq]
      rw [if_neg hne, hc]
      simp
    · intro a b x y hcont hsplit ha hb
      have hne : tok ≠ "0".toList := by
        intro h
        subst h
        simp [List.contains] at hcont
      simp only [parse_hp, heq]
      rw [if_neg hne, hcont]
      simp [hsplit, ha, hb]

/-- Counterexample to C6 as stated: the HP parser is not total — the empty
string (no token at all) raises IndexError instead of returning the
unparseable signal, and the other-shaped token `x/y` raises ValueError. -/
theorem parse_hp_raises_cex :
    parse_hp "" = .error .indexError ∧ parse_hp "x/y" = .error .valueError := by
  decide

/-- Witness for C6's amended theorem at the token `50/100`. -/
theorem parse_hp_behavior_witness :
    pySplitWs "50/100".toList = ["50/100".toList] ∧
    parse_hp "50/100" = .ok (some 50, some 100, none) :=
  ⟨by decide,
   ((parse_hp_behavior "50/100").2 "50/100".toList [] (by decide)).2.2
     "50".toList "100".toList 50 100 (by decide) (by decide) (by decide) (by decide)⟩

/-!  Claim C7: truncation at the first terminal command. -/

theorem terminal_startsWith (l : List Char) (ht : is_terminal_command l = true) :
    startsWithL l "|".toList = true := by
  by_contra h
  rw [Bool.not_eq_true] at h
  unfold is_terminal_command at ht
  rw [h] at ht
  simp at ht

theorem terminal_nonempty (l : List Char) (ht : is_terminal_command l = true) :
    l.isEmpty = false := by
  have h := terminal_startsWith l ht
  cases l with
  | nil => simp [startsWithL] at h
  | cons c cs => rfl

theorem terminal_not_skipped (l : List Char) (ht : is_terminal_command l = true) :
    should_skip_line l = false := by
  have hpipe := terminal_startsWith l ht
  have h1 : startsWithL l "|c|".toList = false := by
    by_contra h
    rw [Bool.not_eq_false, startsWithL, List.isPrefixOf_iff_prefix] at h
    obtain ⟨t, rfl⟩ := h
    unfold is_terminal_command at ht
    split at ht
    · simp at ht
    · simp [splitChar, dropDashes] at ht
  have h2 : startsWithL l "|chat|".toList = false := by
    by_contra h
    rw [Bool.not_eq_false, startsWithL, List.isPrefixOf_iff_prefix] at h
    obtain ⟨t, rfl⟩ := h
    unfold is_terminal_command at ht
    split at ht
    · simp at ht
    · simp [splitChar, dropDashes] at ht
  have h3 : startsWithL l "|html|".toList = false := by
    by_contra h
    rw [Bool.not_eq_false, startsWithL, List.isPrefixOf_iff_prefix] at h
    obtain ⟨t, rfl⟩ := h
    unfold is_terminal_command at ht
    split at ht
    · simp at ht
    · simp [splitChar, dropDashes] at ht
  have h4 : startsWithL l "|error|".toList = false := by
    by_contra h
    rw [Bool.not_eq_false, startsWithL, List.isPrefixOf_iff_prefix] at h
    obtain ⟨t, rfl⟩ := h
    unfold is_terminal_command at ht
    split at ht
    · simp at ht
    · simp [splitChar, dropDashes] at ht
  unfold should_skip_line
  rw [h1, h2, h3, h4, hpipe]
  simp

theorem terminal_parses (l : List Char) (ht : is_terminal_command l = true) :
    ∃ e, parse_log_line l = some e := by
  unfold is_terminal_command at ht
  unfold parse_log_line
  split at ht
  · simp at ht
  · next hcond =>
    rw [if_neg hcond]
    split at ht
    · next a c rest2 heq =>
        rw [heq]
        exact ⟨_, rfl⟩
    · simp at ht

/-- C7 as amended: the loop stops at (and includes) the first line whose
command — after the `lstrip('-')` the source applies — is win, tie or
forcewin; no later line contributes an event.  (As stated the claim fails:
a line such as `|-win|x` also terminates processing although its command is
`-win`, not a member of {win, tie, forcewin}.) -/
theorem process_log_stops_at_terminal (pre : List (List Char)) (t : List Char)
    (post : List (List Char))
    (hpre : ∀ l ∈ pre, is_terminal_command (pyStripL l) = false)
    (ht : is_terminal_command (pyStripL t) = true) :
    ∃ e, parse_log_line (pyStripL t) = some e ∧
      process_log_lines (pre ++ t :: post) = process_log_lines pre ++ [e] := by
  obtain ⟨e, he⟩ := terminal_parses _ ht
  refine ⟨e, he, ?_⟩
  induction pre with
  | nil =>
    have h1 := terminal_nonempty _ ht
    have h2 := terminal_not_skipped _ ht
    simp [process_log_lines, h1, h2, ht, he]
  | cons l pre2 ih =>
    have hterm : is_terminal_command (pyStripL l) = false :=
      hpre l (List.mem_cons_self l pre2)
    have ih2 := ih (fun l2 hl2 => hpre l2 (List.mem_cons_of_mem l hl2))
    rw [List.cons_append]
    by_cases h1 : (pyStripL l).isEmpty = true
    · simp [process_log_lines, h1, ih2]
    · by_cases h2 : should_skip_line (pyStripL l) = true
      · simp [process_log_lines, h1, h2, ih2]
      · cases hp : parse_log_line (pyStripL l) with
        | none =>
          simp [process_log_lines, h1, h2, hterm, hp, ih2]
        | some e2 =>
          simp [process_log_lines, h1, h2, hterm, hp, ih2]

/-- Counterexample to C7 as stated: the log `|-win|a` + `|win|b` contains a
line whose command is win, yet the produced sequence stops at the earlier
`-win` line (whose command is not in {win, tie, forcewin}) and contains no
win/tie/forcewin event at all. -/
theorem terminal_hyphen_cex :
    process_log "|-win|a\n|win|b" =
      [{ type := none, command := some "-win", args := ["a"], raw := "|-win|a" }] ∧
    ((process_log "|-win|a\n|win|b").all
      (fun e => !(e.command == some "win" || e.command == some "tie"
        || e.command == some "forcewin"))) = true := by
  decide

/-- Witness for C7's amended theorem at a concrete three-line log. -/
theorem process_log_stops_at_terminal_witness :
    ∃ e, parse_log_line (pyStripL "|win|Alice".toList) = some e ∧
      process_log_lines (["|player|p1|Alice|".toList] ++
          "|win|Alice".toList :: ["|turn|2".toList]) =
        process_log_lines ["|player|p1|Alice|".toList] ++ [e] :=
  process_log_stops_at_terminal ["|player|p1|Alice|".toList] "|win|Alice".toList
    ["|turn|2".toList] (by decide) (by decide)

/-!  Claim C8: chat-prefixed and non-delimiter lines never contribute. -/

theorem parse_log_line_raw (line : List Char) (e : LogEntry)
    (h : parse_log_line line = some e) :
    e.raw.toList = line ∧ startsWithL line "|".toList = true := by
  unfold parse_log_line at h
  split at h
  · simp at h
  · rename_i hcond
    have hpipe : startsWithL line "|".toList = true := by
      cases hb : startsWithL line "|".toList
      · exact absurd (by rw [hb]; rfl) hcond
      · rfl
    refine ⟨?_, hpipe⟩
    split at h
    · simp at h
    · split at h
      · simp at h
      · rw [Option.some.injEq] at h
        subst h
        rfl

theorem skip_false_no_chat (line : List Char) (h : should_skip_line line = false) :
    startsWithL line "|c|".toList = false ∧ startsWithL line "|chat|".toList = false ∧
    startsWithL line "|html|".toList = false ∧ startsWithL line "|error|".toList = false := by
  unfold should_skip_line at h
  split at h
  · simp at h
  · rename_i hA
    simp only [Bool.or_eq_true, not_or, Bool.not_eq_true] at hA
    exact ⟨hA.1.1.1, hA.1.1.2, hA.1.2, hA.2⟩

/-- C8: every event the log processor emits was tokenized from a line that
begins with the delimiter and carries none of the chat/html/error prefixes —
lines violating either condition never contribute an event. -/
theorem chat_and_nonpipe_never_contribute (logText : String) (e : LogEntry)
    (he : e ∈ process_log logText) :
    startsWithL e.raw.toList "|".toList = true ∧
    startsWithL e.raw.toList "|c|".toList = false ∧
    startsWithL e.raw.toList "|chat|".toList = false ∧
    startsWithL e.raw.toList "|html|".toList = false ∧
    startsWithL e.raw.toList "|error|".toList = false := by
  unfold process_log at he
  revert he
  generalize splitChar '\n' logText.toList = ls
  intro he
  induction ls with
  | nil => simp [process_log_lines] at he
  | cons l ls ih =>
    unfold process_log_lines at he
    split at he
    · exact ih he
    · split at he
      · exact ih he
      · rename_i hskip
        have hskip2 : should_skip_line (pyStripL l) = false := by
          cases hb : should_skip_line (pyStripL l)
          · rfl
          · exact absurd hb hskip
        obtain ⟨hc1, hc2, hc3, hc4⟩ := skip_false_no_chat _ hskip2
        split at he
        · split at he
          · rename_i e' he'
            rw [List.mem_singleton] at he
            subst he
            obtain ⟨hraw, hpipe⟩ := parse_log_line_raw _ _ he'
            rw [hraw]
            exact ⟨hpipe, hc1, hc2, hc3, hc4⟩
          · simp at he
        · split at he
          · rename_i e' he'
            rcases List.mem_cons.mp he with h1 | h2
            · subst h1
              obtain ⟨hraw, hpipe⟩ := parse_log_line_raw _ _ he'
              rw [hraw]
              exact ⟨hpipe, hc1, hc2, hc3, hc4⟩
            · exact ih h2
          · exact ih he

/-- Witness for C8 at a log interleaving a non-pipe line and a chat line with
one protocol line. -/
theorem chat_and_nonpipe_never_contribute_witness :
    startsWithL c8entry.raw.toList "|".toList = true ∧
    startsWithL c8entry.raw.toList "|c|".toList = false ∧
    startsWithL c8entry.raw.toList "|chat|".toList = false ∧
    startsWithL c8entry.raw.toList "|html|".toList = false ∧
    startsWithL c8entry.raw.toList "|error|".toList = false :=
  chat_and_nonpipe_never_contribute "junk\n|c|hi\n|move|p1a: A|Tackle" c8entry (by decide)

/-!  Claim C9: tracker operations on unregistered identifiers. -/

/-- C9 as amended: every single-identifier tracker operation invoked with an
unregistered identifier leaves the tracker unchanged and raises nothing; but
`track_damage` checks its two identifiers independently — it is a complete
no-op only when both are unregistered, and with a registered defender it
still mutates that defender even though the attacker is unknown. -/
theorem tracker_unknown_noop (t : PokemonTracker) (pid mv ab it : String)
    (hp max_hp : Int) (atk dfn : String) (dmg : Int)
    (h : containsId t pid = false)
    (ha : containsId t atk = false) (hd : containsId t dfn = false) :
    track_move t pid mv = t ∧ track_ability t pid ab = t ∧ track_item t pid it = t ∧
    track_hp t pid hp max_hp = t ∧ track_faint t pid = t ∧ track_knockout t pid = t ∧
    track_damage t atk dfn dmg = t := by
  refine ⟨?_, ?_, ?_, ?_, ?_, ?_, ?_⟩ <;>
    simp [track_move, track_ability, track_item, track_hp, track_faint,
      track_knockout, track_damage, h, ha, hd]

/-- Counterexample to C9 as stated: `track_damage` invoked with the
unregistered attacker `p2:X` still mutates the registered defender `p1:A`
(its damage-taken counter moves to 10), so the tracker state is not left
unchanged. -/
theorem track_damage_partial_cex :
    containsId oneTracker "p2:X" = false ∧
    track_damage oneTracker "p2:X" "p1:A" 10 ≠ oneTracker ∧
    (alistGet (track_damage oneTracker "p2:X" "p1:A" 10).pokemon "p1:A").map
      PokemonData.damage_taken = some 10 := by
  decide

/-- Witness for C9's amended theorem with every identifier unregistered. -/
theorem tracker_unknown_noop_witness :
    containsId oneTracker "p2:X" = false ∧ containsId oneTracker "p2:Y" = false ∧
    (track_move oneTracker "p2:X" "Tackle" = oneTracker ∧
     track_ability oneTracker "p2:X" "Static" = oneTracker ∧
     track_item oneTracker "p2:X" "Leftovers" = oneTracker ∧
     track_hp oneTracker "p2:X" 10 20 = oneTracker ∧
     track_faint oneTracker "p2:X" = oneTracker ∧
     track_knockout oneTracker "p2:X" = oneTracker ∧
     track_damage oneTracker "p2:X" "p2:Y" 10 = oneTracker) :=
  ⟨by decide, by decide,
   tracker_unknown_noop oneTracker "p2:X" "Tackle" "Static" "Leftovers" 10 20
     "p2:X" "p2:Y" 10 (by decide) (by decide) (by decide)⟩
